import Mathlib

/-!
Shallow embedding of the `commitment` git hook (a Go program that generates a
commit message from the staged diff and prepends it to the commit-message
file).  The repository carries two variants of `main.go`:

* variant 1 ("V1", embedded prompt): the version using `go:embed` for the
  system prompt, with markdown-fence stripping and no diff-size limit;
* variant 2 ("V2", file prompt): the version that reads the prompt from a
  file, inspects the parent process for a `--no-ai-msg` flag, gates large
  diffs behind an interactive confirmation and hard-truncates the diff to
  4000 bytes, and does not strip markdown fences.

Go strings are modelled as Lean `String` (a sequence of characters; all the
operations the program performs are ASCII-safe, where Go's byte-level and
rune-level views agree).  Every external effect (file reads, process
spawning, the HTTPS call, template execution) is modelled as an explicit
input describing its outcome.  All string operations are re-implemented by
structural recursion over `List Char` so that concrete runs reduce inside
the kernel.
-/

/-- Whitespace recognised by Go `strings.TrimSpace` (ASCII part; the Unicode
space classes do not occur in the inputs the program handles). -/
def isSpaceChar (c : Char) : Bool :=
  c = ' ' || c = '\t' || c = '\n' || c = '\x0b' || c = '\x0c' || c = '\r'

/-- Go `strings.TrimSpace`. -/
def goTrimSpace (s : String) : String :=
  String.mk (((s.toList.dropWhile isSpaceChar).reverse.dropWhile isSpaceChar).reverse)

/-- Go `strings.HasPrefix s pat`. -/
def goStartsWith (s pat : String) : Bool :=
  pat.toList.isPrefixOf s.toList

/-- Go `strings.Contains s pat`. -/
def containsSubstring (s pat : String) : Bool :=
  s.toList.tails.any (fun t => pat.toList.isPrefixOf t)

/-- Go `strings.Count s "\n"` (single-character pattern, so it counts
occurrences of the character). -/
def countChar (s : String) (c : Char) : Nat :=
  (s.toList.filter (fun d => d = c)).length

/-- Go `strings.ToLower` (ASCII). -/
def goToLower (s : String) : String :=
  String.mk (s.toList.map Char.toLower)

/-- Split a character list at every occurrence of `'\n'`
(Go `strings.Split s "\n"`). -/
def splitLines : List Char → List (List Char)
  | [] => [[]]
  | c :: rest =>
    if c = '\n' then [] :: splitLines rest
    else
      match splitLines rest with
      | [] => [[c]]
      | h :: t => (c :: h) :: t

/-- Split a character list at every occurrence of the two-character
separator `"\n\n"`, leftmost-first and non-overlapping
(Go `strings.Split s "\n\n"`). -/
def splitBlank : List Char → List (List Char)
  | '\n' :: '\n' :: rest => [] :: splitBlank rest
  | c :: rest =>
    match splitBlank rest with
    | [] => [[c]]
    | h :: t => (c :: h) :: t
  | [] => [[]]

/-- Go `strings.Split s "\n"` on `String`. -/
def splitNewline (s : String) : List String :=
  (splitLines s.toList).map String.mk

/-- Go `strings.Split s "\n\n"` on `String`. -/
def splitDoubleNewline (s : String) : List String :=
  (splitBlank s.toList).map String.mk

/-- Go `strings.Join xs sep`. -/
def goJoin (sep : String) : List String → String
  | [] => ""
  | x :: xs => xs.foldl (fun acc y => acc ++ sep ++ y) x

/-- The character class `["']` of the Go regexp `^["'](.*)["']$`. -/
def isQuoteChar (c : Char) : Bool :=
  c = '"' || c = '\''

/-- The quote-removal step of the sanitizer (both variants):

    reQuotes := regexp.MustCompile(`^["'](.*)["']$`)
    if matches := reQuotes.FindStringSubmatch(message); len(matches) > 1 {
      message = matches[1]
    }

In Go's RE2, `.` does not match a newline and `^`/`$` anchor at the ends of
the text, so the regexp matches exactly when the text has at least two
characters, its first and last characters are each a straight double or
single quote, and no newline occurs between them; the (greedy) capture is
everything strictly between the first and last character. -/
def stripSurroundingQuotes (s : String) : String :=
  match s.toList with
  | c1 :: c2 :: cs =>
    let tail := c2 :: cs
    let mid := tail.dropLast
    if isQuoteChar c1 && isQuoteChar (tail.getLast (by simp)) && !(mid.contains '\n') then
      String.mk mid
    else s
  | _ => s

/-- `stripMarkdownFences` from variant 1 (transcribed from the Go source):
if the trimmed message starts with ```` ``` ````, drop the first line; if the
last remaining line trims to ```` ``` ````, drop it too; trim the rest.  A
single-line fence yields the empty string. -/
def stripMarkdownFences (message : String) : String :=
  if goStartsWith (goTrimSpace message) "```" then
    match splitNewline message with
    | [] => ""
    | [_] => ""
    | _ :: l :: ls =>
      let rest := l :: ls
      let rest2 :=
        if goTrimSpace (rest.getLast (by simp)) = "```" then rest.dropLast else rest
      goTrimSpace (goJoin "\n" rest2)
  else message

/-- The full response sanitizer of variant 1, applied to the first choice's
content: trim, strip a surrounding quote pair, strip markdown fences. -/
def sanitizeResponse (raw : String) : String :=
  stripMarkdownFences (stripSurroundingQuotes (goTrimSpace raw))

/-- The response sanitizer of variant 2: trim and strip a surrounding quote
pair only (no fence handling). -/
def sanitizeResponseV2 (raw : String) : String :=
  stripSurroundingQuotes (goTrimSpace raw)

/-- `shouldSkip` from variant 1.  `fileRead` is the outcome of
`os.ReadFile(commitMsgFile)`: `none` for a read error, `some content`
otherwise. -/
def shouldSkip (commitType : String) (fileRead : Option String) : Bool :=
  if commitType ≠ "" then true
  else
    match fileRead with
    | some content =>
      let contentStr := goTrimSpace content
      if contentStr ≠ "" && !(goStartsWith contentStr "#") then true else false
    | none => false

/-- `skipFlag` constant of variant 2. -/
def skipFlag : String := "--no-ai-msg"

/-- `shouldSkip` from variant 2: in addition to the variant-1 checks it runs
`ps -o args= -p <ppid>` and skips when that output contains `--no-ai-msg`.
`psOutput` is the outcome of that command (`none` for an error). -/
def shouldSkipV2 (commitType : String) (fileRead : Option String)
    (psOutput : Option String) : Bool :=
  if commitType ≠ "" then true
  else
    let fileHasMessage :=
      match fileRead with
      | some content =>
        let contentStr := goTrimSpace content
        contentStr ≠ "" && !(goStartsWith contentStr "#")
      | none => false
    if fileHasMessage then true
    else
      match psOutput with
      | some out => containsSubstring out skipFlag
      | none => false

/-- The outcome of the `ps` inspection as a flag, for stating hypotheses. -/
def psHasSkipFlag (psOutput : Option String) : Bool :=
  match psOutput with
  | some out => containsSubstring out skipFlag
  | none => false

/-- The per-chunk filter of `getCurrentAuthorRecentCommits` (variant 1):
a chunk is kept unless its trimmed text is at most one line, or exactly two
lines with the second prefixed `Signed-off-by:`. -/
def keepCommitMsg (msg : String) : Bool :=
  match splitNewline (goTrimSpace msg) with
  | [] => false
  | [_] => false
  | [_, l2] => !(goStartsWith l2 "Signed-off-by:")
  | _ => true

/-- The accumulation loop of `getCurrentAuthorRecentCommits`: keep chunks
passing the filter, stopping once `room` entries have been collected
(the Go loop breaks when `len(filteredMsgs) >= 5`). -/
def filterCommitMsgs : List String → Nat → List String
  | [], _ => []
  | m :: rest, room =>
    if keepCommitMsg m then
      if room ≤ 1 then [m]
      else m :: filterCommitMsgs rest (room - 1)
    else filterCommitMsgs rest room

/-- `getCurrentAuthorRecentCommits` from variant 1, given the raw output of
`git log --author=<email> --pretty=format:%B -n 20` (newest commit first).
The code splits that output on `"\n\n"`, filters, keeps at most 5 chunks and
joins them with `"\n\n---\n\n"`. -/
def getCurrentAuthorRecentCommits (logOutput : String) : String :=
  goJoin "\n\n---\n\n" (filterCommitMsgs (splitDoubleNewline logOutput) 5)

/-- `updateCommitMessageFile` (identical in both variants): read the file;
on a read error report and return without writing; otherwise write
`message + "\n\n" + existingContent`.  `fileRead` is the file's content
(`none` for a read error); the result is the file's content afterwards,
assuming the write syscall itself succeeds. -/
def updateCommitMessageFile (message : String) (fileRead : Option String) :
    Option String :=
  match fileRead with
  | none => none
  | some existingContent => some (message ++ "\n\n" ++ existingContent)

/-- Outcome of reading and JSON-unmarshalling the HTTP response body:
`readError` for an `io.ReadAll` failure, `malformed` for a
`json.Unmarshal` failure, `parsed choices` for a well-formed body whose
`choices[i].message.content` fields are listed in order. -/
inductive BodyOutcome where
  | readError : BodyOutcome
  | malformed : BodyOutcome
  | parsed : List String → BodyOutcome

/-- Outcome of the HTTPS POST: a transport error from `client.Do`, or a
response with a status code and a body. -/
inductive HttpOutcome where
  | transportError : HttpOutcome
  | response : Nat → BodyOutcome → HttpOutcome

/-- The completion-handling sequence shared by both variants, transcribed in
the code's order: a transport error, a non-200 status, a body read error, a
parse failure, or an empty `choices` array each yield failure (`none`);
otherwise the first choice's content is returned. -/
def rawCompletion : HttpOutcome → Option String
  | .transportError => none
  | .response status body =>
    if status ≠ 200 then none
    else
      match body with
      | .readError => none
      | .malformed => none
      | .parsed [] => none
      | .parsed (c :: _) => some c

/-- `readPromptFile` (both variants): the outcome of parsing and executing
the Go text template, trimmed on success.  `templateRun` is `none` when
parsing or execution fails, `some out` when it produces `out`. -/
def readPromptFile (templateRun : Option String) : Option String :=
  templateRun.map goTrimSpace

/-- The user prompt of variant 1: the Go raw-string literal with the diff
and file list embedded verbatim (no size limit anywhere in this variant). -/
def promptTextV1 (files diff : String) : String :=
  "\n\t\tHere are the changed files:\n\t\t" ++ files ++
    "\n\n\t\tHere is the diff:\n\t\t" ++ diff

/-- The diff truncation of variant 2: `if len(diff) > 4000 { diff = diff[:4000] }`. -/
def truncatedDiffV2 (diff : String) : String :=
  if diff.length > 4000 then String.mk (diff.toList.take 4000) else diff

/-- The user prompt of variant 2, built from the truncated diff. -/
def promptTextV2 (files diff : String) : String :=
  "\nHere are the changed files:\n" ++ files ++
    "\n\nHere is the diff:\n" ++ truncatedDiffV2 diff ++ "\n"

/-- Observable outcome of `generateCommitMessage`: whether the HTTPS request
was issued, the system-role content used for it, the user prompt, and the
returned (sanitized) message — `""` signals failure to the caller. -/
structure GenResult where
  requestMade : Bool
  systemRole : String
  userPrompt : String
  message : String
  deriving Repr, DecidableEq

/-- `generateCommitMessage` from variant 1: build the user prompt, read the
embedded template (aborting with an empty result, before any request, if it
fails), then issue the request and sanitize the first choice. -/
def generateCommitMessage (diff files : String) (templateRun : Option String)
    (http : HttpOutcome) : GenResult :=
  let userPrompt := promptTextV1 files diff
  match readPromptFile templateRun with
  | none =>
    { requestMade := false, systemRole := "", userPrompt := userPrompt, message := "" }
  | some systemRole =>
    { requestMade := true
      systemRole := systemRole
      userPrompt := userPrompt
      message :=
        match rawCompletion http with
        | none => ""
        | some content => sanitizeResponse content }

/-- `generateCommitMessage` from variant 2: a template failure (or an empty
template result) is swallowed — the system role falls back to `""` and the
request is still issued; the response is trimmed and quote-stripped only. -/
def generateCommitMessageV2 (diff files : String) (templateRun : Option String)
    (http : HttpOutcome) : GenResult :=
  let systemRole := (readPromptFile templateRun).getD ""
  { requestMade := true
    systemRole := systemRole
    userPrompt := promptTextV2 files diff
    message :=
      match rawCompletion http with
      | none => ""
      | some content => sanitizeResponseV2 content }

/-- `os.Args[2]` when present, else `""` (the commit-type token). -/
def commitTypeOfArgs (args : List String) : String :=
  match args with
  | _ :: _ :: t :: _ => t
  | _ => ""

/-- `main` of variant 1 as a function from the outcomes of its external
queries to the pair (exit code, final commit-message-file content).
`args` is `os.Args` (program name included), `fileRead` the commit-message
file's readable content, `diff`/`files` the staged-diff query results
(a failed query yields `""` inside `getGitDiff`/`getChangedFiles`). -/
def mainRun (args : List String) (apiKey : String) (fileRead : Option String)
    (diff files : String) (templateRun : Option String) (http : HttpOutcome) :
    Nat × Option String :=
  if args.length < 2 then (1, fileRead)
  else if shouldSkip (commitTypeOfArgs args) fileRead then (0, fileRead)
  else if apiKey = "" then (0, fileRead)
  else if diff = "" then (0, fileRead)
  else
    let gen := generateCommitMessage diff files templateRun http
    if gen.message ≠ "" then (0, updateCommitMessageFile gen.message fileRead)
    else (0, fileRead)

/-- `maxDiffLines` constant of variant 2. -/
def maxDiffLines : Nat := 2000

/-- `main` of variant 2: additionally consults the parent-process inspection
(`psOutput`) inside the skip gate and, when the staged diff has more than
`maxDiffLines` newlines, asks for confirmation — `largeDiffAnswer` is the
token read by `fmt.Scanln`; generation proceeds only if it starts
(case-insensitively) with `y`. -/
def mainRunV2 (args : List String) (apiKey : String) (fileRead : Option String)
    (psOutput : Option String) (diff files : String) (largeDiffAnswer : String)
    (templateRun : Option String) (http : HttpOutcome) : Nat × Option String :=
  if args.length < 2 then (1, fileRead)
  else if shouldSkipV2 (commitTypeOfArgs args) fileRead psOutput then (0, fileRead)
  else if apiKey = "" then (0, fileRead)
  else if diff = "" then (0, fileRead)
  else if countChar diff '\n' > maxDiffLines
      && !(goStartsWith (goToLower largeDiffAnswer) "y") then (0, fileRead)
  else
    let gen := generateCommitMessageV2 diff files templateRun http
    if gen.message ≠ "" then (0, updateCommitMessageFile gen.message fileRead)
    else (0, fileRead)

/-- A string is in sanitized normal form when it is already trimmed, is not
quote-wrapped in the sense of the Go regexp, and does not start (after
trimming) with a markdown fence — exactly the shapes on which each stage of
the sanitizer is a no-op. -/
def sanitizedNormalForm (s : String) : Bool :=
  (goTrimSpace s == s) && (stripSurroundingQuotes s == s)
    && !(goStartsWith (goTrimSpace s) "```")

/-- A matching pair of straight or curly quote characters, as the claim
describes the quote-strip trigger. -/
def matchingQuotePair (a b : Char) : Bool :=
  (a = '"' && b = '"') || (a = '\'' && b = '\'')
    || (a = '“' && b = '”') || (a = '‘' && b = '’')

/-- Modelled from the spec words for comparison with the code: strip the
surrounding quote characters exactly when the entire text is wrapped in a
single matching pair of straight or curly quote characters. -/
def specQuoteStrip (s : String) : String :=
  match s.toList with
  | c1 :: c2 :: cs =>
    let tail := c2 :: cs
    if matchingQuotePair c1 (tail.getLast (by simp)) then String.mk tail.dropLast
    else s
  | _ => s

/-- The quote-strip step as amended, written from the spec side: the first
and last characters are removed exactly when the trimmed text has at least
two characters, begins and ends with a straight double or single quote (not
necessarily a matching pair; curly quotes are not recognised), and contains
no newline strictly between them. -/
def specQuoteStripAmended (s : String) : String :=
  let cs := s.toList
  if 2 ≤ cs.length && isQuoteChar (cs.headD ' ') && isQuoteChar (cs.getLastD ' ')
      && !(((cs.drop 1).dropLast).contains '\n') then
    String.mk ((cs.drop 1).dropLast)
  else s

example : sanitizeResponse "\"fix bug\"" = "fix bug" := by decide
example : sanitizeResponse "```\nHELLO\n```" = "HELLO" := by decide
example : sanitizeResponse "```" = "" := by decide
example : sanitizeResponse "\"\"hello\"\"" = "\"hello\"" := by decide
example : shouldSkip "" (some "# Please enter") = false := by decide
example : shouldSkip "merge" (some "") = true := by decide
example : getCurrentAuthorRecentCommits "Add feature\n\nExplain the change." = "" := by
  decide
example : keepCommitMsg "title\nSigned-off-by: A" = false := by decide
example : keepCommitMsg "title\nbody line" = true := by decide

/-- C1: for every generated non-empty message `M` and pre-existing
commit-message file content `C`, the writer's update produces exactly
`M ++ "\n\n" ++ C`; in particular the old content `C` survives in full as a
suffix, so no byte of it is discarded. -/
theorem C1_update_prepends (M C : String) (_hM : M ≠ "") :
    updateCommitMessageFile M (some C) = some (M ++ "\n\n" ++ C) ∧
    ∃ pre, M ++ "\n\n" ++ C = pre ++ C := by
  exact ⟨rfl, ⟨M ++ "\n\n", rfl⟩⟩

/-- Witness for C1 at a concrete message and file content. -/
theorem C1_update_prepends_witness :
    updateCommitMessageFile "Add login form" (some "# Please enter the commit message")
      = some ("Add login form" ++ "\n\n" ++ "# Please enter the commit message") ∧
    ∃ pre, "Add login form" ++ "\n\n" ++ "# Please enter the commit message"
      = pre ++ "# Please enter the commit message" :=
  C1_update_prepends "Add login form" "# Please enter the commit message" (by decide)

/-- C10: with an empty commit-type token, a failed read of the
commit-message file makes `shouldSkip` fall through to `false`, the same
answer as for a pristine (empty) file, so generation proceeds. -/
theorem C10_unreadable_file_proceeds :
    shouldSkip "" none = false ∧ shouldSkip "" none = shouldSkip "" (some "") := by
  decide

/-- C9: in each variant, whenever that variant's generated-and-sanitized
message is the empty string, its `main` never calls the writer and the
commit-message file is left byte-for-byte unchanged.  The two implications
are independent, since the variants sanitize differently (only variant 1
strips markdown fences). -/
theorem C9_empty_message_no_write (args : List String) (apiKey : String)
    (fileRead psOutput : Option String) (diff files answer : String)
    (templateRun : Option String) (http : HttpOutcome) :
    ((generateCommitMessage diff files templateRun http).message = "" →
      (mainRun args apiKey fileRead diff files templateRun http).2 = fileRead) ∧
    ((generateCommitMessageV2 diff files templateRun http).message = "" →
      (mainRunV2 args apiKey fileRead psOutput diff files answer templateRun http).2
        = fileRead) := by
  constructor
  · intro h1
    unfold mainRun
    split
    · rfl
    · split
      · rfl
      · split
        · rfl
        · split
          · rfl
          · simp [h1]
  · intro h2
    unfold mainRunV2
    split
    · rfl
    · split
      · rfl
      · split
        · rfl
        · split
          · rfl
          · split
            · rfl
            · simp [h2]

/-- Witness for C9, one run per variant: variant 1 receives a bare code
fence as the single choice, which its sanitizer reduces to `""`; variant 2
receives an empty quoted string, which its sanitizer reduces to `""`.  In
both runs the file keeps its original content. -/
theorem C9_empty_message_no_write_witness :
    (mainRun ["commitment", "COMMIT_EDITMSG"] "key" (some "# Please enter")
        "diff --git" "M\ta.go" (some "You write commit messages.")
        (.response 200 (.parsed ["```"]))).2 = some "# Please enter" ∧
    (mainRunV2 ["commitment", "COMMIT_EDITMSG"] "key" (some "# Please enter")
        none "diff --git" "M\ta.go" "" (some "You write commit messages.")
        (.response 200 (.parsed ["\"\""]))).2 = some "# Please enter" :=
  ⟨(C9_empty_message_no_write ["commitment", "COMMIT_EDITMSG"] "key"
      (some "# Please enter") none "diff --git" "M\ta.go" ""
      (some "You write commit messages.") (.response 200 (.parsed ["```"]))).1
      (by decide),
   (C9_empty_message_no_write ["commitment", "COMMIT_EDITMSG"] "key"
      (some "# Please enter") none "diff --git" "M\ta.go" ""
      (some "You write commit messages.") (.response 200 (.parsed ["\"\""]))).2
      (by decide)⟩

/-- C2: in every run (variant 1) that reaches the completion call and in
which the call fails — a transport error, a non-200 status, an unreadable or
malformed response body, or zero returned choices — generation reports
failure by returning `""`, the commit-message file is left byte-for-byte
unchanged, and the process exits 0. -/
theorem C2_completion_failure_non_fatal (args : List String) (apiKey : String)
    (fileRead : Option String) (diff files tmpl : String) (http : HttpOutcome)
    (hargs : 2 ≤ args.length)
    (hskip : shouldSkip (commitTypeOfArgs args) fileRead = false)
    (hkey : apiKey ≠ "")
    (hdiff : diff ≠ "")
    (hfail : rawCompletion http = none) :
    (generateCommitMessage diff files (some tmpl) http).requestMade = true ∧
    (generateCommitMessage diff files (some tmpl) http).message = "" ∧
    mainRun args apiKey fileRead diff files (some tmpl) http = (0, fileRead) := by
  have hmsg : (generateCommitMessage diff files (some tmpl) http).message = "" := by
    simp [generateCommitMessage, readPromptFile, hfail]
  refine ⟨by simp [generateCommitMessage, readPromptFile], hmsg, ?_⟩
  unfold mainRun
  rw [if_neg (by omega)]
  rw [if_neg (by simp [hskip])]
  rw [if_neg hkey]
  rw [if_neg hdiff]
  simp [hmsg]

/-- Witness for C2: HTTP 500 on a run that reaches the call; the exit code
is 0 and the file content is unchanged. -/
theorem C2_completion_failure_non_fatal_witness :
    (generateCommitMessage "diff --git" "M\ta.go" (some "You write commit messages.")
        (.response 500 .readError)).requestMade = true ∧
    (generateCommitMessage "diff --git" "M\ta.go" (some "You write commit messages.")
        (.response 500 .readError)).message = "" ∧
    mainRun ["commitment", "COMMIT_EDITMSG"] "key" (some "# Please enter")
        "diff --git" "M\ta.go" (some "You write commit messages.")
        (.response 500 .readError)
      = (0, some "# Please enter") :=
  C2_completion_failure_non_fatal ["commitment", "COMMIT_EDITMSG"] "key"
    (some "# Please enter") "diff --git" "M\ta.go" "You write commit messages."
    (.response 500 .readError)
    (by decide) (by decide) (by decide) (by decide) (by decide)

/-- C8 counterexample: in the file-template variant, a template failure does
not abort generation — the completion request is still made (the claim says
no completion request is made). -/
theorem C8_template_failure_request_still_made_cex :
    (generateCommitMessageV2 "diff --git" "M\ta.go" none
        HttpOutcome.transportError).requestMade = true := by
  decide

/-- C8 as amended: in the embedded-template variant a template parse or
execution failure aborts generation for the invocation — the result is
empty, no completion request is made, and the commit-message file is not
mutated.  In the file-template variant the failure is swallowed instead:
the system prompt falls back to the empty string and the completion request
is still made. -/
theorem C8_template_failure_behavior (args : List String) (apiKey : String)
    (fileRead : Option String) (diff files : String) (http : HttpOutcome) :
    (generateCommitMessage diff files none http).requestMade = false ∧
    (generateCommitMessage diff files none http).message = "" ∧
    (mainRun args apiKey fileRead diff files none http).2 = fileRead ∧
    (generateCommitMessageV2 diff files none http).requestMade = true ∧
    (generateCommitMessageV2 diff files none http).systemRole = "" := by
  have h1 : (generateCommitMessage diff files none http).message = "" := by
    simp [generateCommitMessage, readPromptFile]
  refine ⟨by simp [generateCommitMessage, readPromptFile], h1, ?_,
    by simp [generateCommitMessageV2], by simp [generateCommitMessageV2, readPromptFile]⟩
  unfold mainRun
  split
  · rfl
  · split
    · rfl
    · split
      · rfl
      · split
        · rfl
        · simp [h1]

/-- C3 counterexample: the sanitizer is not idempotent as claimed.  On the
doubly-quoted input `""hello""` one application strips only the outer quote
pair, leaving `"hello"`, and a second application strips again, yielding
`hello`. -/
theorem C3_sanitize_not_idempotent :
    sanitizeResponse (sanitizeResponse "\"\"hello\"\"")
      ≠ sanitizeResponse "\"\"hello\"\"" := by
  decide

/-- C3 as amended: applying the sanitizer twice is a no-op for every input
whose sanitized result is in sanitized normal form (trimmed, not
quote-wrapped, not fence-leading); in general a second application can strip
one further quote layer exposed by the first. -/
theorem C3_sanitize_idempotent_on_normal_forms (x : String)
    (h : sanitizedNormalForm (sanitizeResponse x) = true) :
    sanitizeResponse (sanitizeResponse x) = sanitizeResponse x := by
  simp only [sanitizedNormalForm, Bool.and_eq_true, beq_iff_eq,
    Bool.not_eq_true'] at h
  obtain ⟨⟨h1, h2⟩, h3⟩ := h
  conv_lhs => rw [sanitizeResponse]
  rw [h1, h2]
  rw [stripMarkdownFences, if_neg (by simp [h3])]

/-- Witness for C3 on input `  "Add login form"  `, whose sanitized result
`Add login form` is in normal form. -/
theorem C3_sanitize_idempotent_witness :
    sanitizeResponse (sanitizeResponse "  \"Add login form\"  ")
      = sanitizeResponse "  \"Add login form\"  " :=
  C3_sanitize_idempotent_on_normal_forms "  \"Add login form\"  " (by decide)

/-- C4 counterexample: on text wrapped in a matching pair of curly double
quotes the claim demands stripping, but the code's regexp `^["'](.*)["']$`
recognises only straight quotes and leaves the text unchanged. -/
theorem C4_quote_strip_curly_cex :
    stripSurroundingQuotes "“fix bug”" = "“fix bug”" ∧
    specQuoteStrip "“fix bug”" = "fix bug" := by
  decide

/-- C4 as amended: the code's quote-strip step agrees with the amended
description on every input, and the claim's own example still holds:
`"fix bug"` (straight double quotes) yields `fix bug`. -/
theorem C4_quote_strip_characterization :
    (∀ s : String, stripSurroundingQuotes s = specQuoteStripAmended s) ∧
    stripSurroundingQuotes "\"fix bug\"" = "fix bug" := by
  refine ⟨?_, by decide⟩
  intro s
  rcases hs : s.data with _ | ⟨a, _ | ⟨b, t⟩⟩
  · simp [stripSurroundingQuotes, specQuoteStripAmended, String.length, hs]
  · simp [stripSurroundingQuotes, specQuoteStripAmended, String.length, hs]
  · have h2 : ((b :: t).getLast?).getD ' ' = t.getLastD b := by
      rw [← List.getLastD_eq_getLast?, List.getLastD_cons]
    simp [stripSurroundingQuotes, specQuoteStripAmended, String.length, hs,
      List.getLast_eq_getLastD, h2]

/-- C5 counterexample: in the variant whose skip gate also inspects the
parent process's command line, a pristine (empty) commit-message file and an
empty commit-type token still skip generation when that command line
contains `--no-ai-msg`, so `ShouldSkip` returns true there, not false. -/
theorem C5_skip_gate_ps_flag_cex :
    shouldSkipV2 "" (some "") (some "git commit --no-ai-msg") = true := by
  decide

/-- C5 as amended: for every file content that is empty, whitespace-only,
or whose trimmed content starts with `#`, and an empty commit-type token,
`shouldSkip` returns false in the embedded-prompt variant; in the variant
that inspects the parent process's command line it returns false provided
that command line does not contain `--no-ai-msg`. -/
theorem C5_pristine_file_no_skip (content : String) (psOutput : Option String)
    (hc : goTrimSpace content = "" ∨ goStartsWith (goTrimSpace content) "#" = true)
    (hp : psHasSkipFlag psOutput = false) :
    shouldSkip "" (some content) = false ∧
    shouldSkipV2 "" (some content) psOutput = false := by
  have himp : ¬goTrimSpace content = "" →
      goStartsWith (goTrimSpace content) "#" = true := by
    intro hne
    rcases hc with h | h
    · exact absurd h hne
    · exact h
  constructor
  · simp only [shouldSkip]
    simp
    exact himp
  · simp only [shouldSkipV2]
    rcases psOutput with _ | out
    · simp
      exact himp
    · simp only [psHasSkipFlag] at hp
      simp [hp]
      exact himp

/-- Witness for C5 at a comment-only file and an absent parent-process
query result. -/
theorem C5_pristine_file_no_skip_witness :
    shouldSkip "" (some "# Please enter the commit message") = false ∧
    shouldSkipV2 "" (some "# Please enter the commit message") none = false :=
  C5_pristine_file_no_skip "# Please enter the commit message" none
    (by right; decide) (by decide)

/-- C6 counterexample: a commit body whose additional line is separated
from the title by a blank line is not included in the sample — the claim
says any commit body with an additional line is included, but the code
splits the log output at every blank line, so this body falls apart into
two single-line chunks and both are discarded, leaving an empty sample. -/
theorem C6_multi_paragraph_body_dropped_cex :
    getCurrentAuthorRecentCommits "Add feature\n\nExplain the change." = "" ∧
    1 < (splitNewline "Add feature\n\nExplain the change.").length := by
  decide

/-- The accumulation loop collects exactly the first `n` chunks passing the
filter, in order. -/
theorem filterCommitMsgs_eq_filter_take :
    ∀ (msgs : List String) (n : Nat), 1 ≤ n →
      filterCommitMsgs msgs n = (msgs.filter keepCommitMsg).take n
  | [], _, _ => by simp [filterCommitMsgs]
  | m :: rest, n, hn => by
    unfold filterCommitMsgs
    by_cases hk : keepCommitMsg m
    · rw [if_pos hk, List.filter_cons_of_pos hk]
      by_cases h1 : n ≤ 1
      · have hn1 : n = 1 := Nat.le_antisymm h1 hn
        subst hn1
        simp
      · rw [if_neg h1,
          filterCommitMsgs_eq_filter_take rest (n - 1) (by omega)]
        obtain ⟨k, rfl⟩ : ∃ k, n = k + 1 := ⟨n - 1, by omega⟩
        simp
    · rw [if_neg hk, List.filter_cons_of_neg (by simp [hk]),
        filterCommitMsgs_eq_filter_take rest n hn]

/-- C6 as amended: the sampler splits the log output at every blank line
and filters the resulting chunks — a chunk whose trimmed text is a single
line, or exactly two lines with the second prefixed `Signed-off-by:`, is
excluded, and every other chunk is included; the sample is the first at
most 5 surviving chunks, in input (newest-first) order, joined with the
`\n\n---\n\n` separator.  A commit body whose additional content sits after
a blank line is split into separate chunks and is not sampled as a whole. -/
theorem C6_sampler_chunk_behavior (logOutput : String) :
    getCurrentAuthorRecentCommits logOutput
      = goJoin "\n\n---\n\n"
          (((splitDoubleNewline logOutput).filter keepCommitMsg).take 5) ∧
    (filterCommitMsgs (splitDoubleNewline logOutput) 5).length ≤ 5 ∧
    (filterCommitMsgs (splitDoubleNewline logOutput) 5).Sublist
      (splitDoubleNewline logOutput) ∧
    ∀ m ∈ filterCommitMsgs (splitDoubleNewline logOutput) 5,
      keepCommitMsg m = true := by
  have h := filterCommitMsgs_eq_filter_take (splitDoubleNewline logOutput) 5
    (by omega)
  refine ⟨by rw [getCurrentAuthorRecentCommits, h], ?_, ?_, ?_⟩
  · rw [h]
    simp only [List.length_take]
    omega
  · rw [h]
    exact (List.take_sublist _ _).trans (List.filter_sublist _)
  · rw [h]
    intro m hm
    exact (List.mem_filter.mp (List.mem_of_mem_take hm)).2

/-- C7 counterexample: in the embedded-prompt variant the diff is embedded
in the user prompt verbatim, with no bound of any kind — no character
budget exists that the prompt respects for every staged diff. -/
theorem C7_embedded_variant_unbounded_cex :
    ¬ ∃ B : Nat, ∀ diff : String, (promptTextV1 "" diff).length ≤ B := by
  rintro ⟨B, hB⟩
  have h := hB (String.mk (List.replicate (B + 1) 'a'))
  simp [promptTextV1, String.length_append] at h
  omega

/-- C7 as amended: only the file-template variant bounds the diff placed
into the prompt, by hard truncation to 4000 characters (so its user prompt
is at most the changed-file list plus 4050 characters of fixed text and
diff); the embedded-prompt variant embeds the diff verbatim, so its prompt
is at least as long as the diff and is unbounded. -/
theorem C7_diff_size_policy (files diff : String) :
    (truncatedDiffV2 diff).length ≤ 4000 ∧
    (promptTextV2 files diff).length ≤ files.length + 4050 ∧
    diff.length ≤ (promptTextV1 files diff).length := by
  have ht : (truncatedDiffV2 diff).length ≤ 4000 := by
    unfold truncatedDiffV2
    split
    · simp [List.length_take]
    · omega
  refine ⟨ht, ?_, ?_⟩
  · have e1 : ("\nHere are the changed files:\n" : String).length = 29 := rfl
    have e2 : ("\n\nHere is the diff:\n" : String).length = 20 := rfl
    have e3 : ("\n" : String).length = 1 := rfl
    simp only [promptTextV2, String.length_append, e1, e2, e3]
    omega
  · have e4 : ("\n\t\tHere are the changed files:\n\t\t" : String).length = 33 := rfl
    have e5 : ("\n\n\t\tHere is the diff:\n\t\t" : String).length = 24 := rfl
    simp only [promptTextV1, String.length_append, e4, e5]
    omega
